import Mathlib

/-!
# Verification of the bitcoin-testnet-k8s-node metrics exporter

Shallow embedding of `src/bitcoin_exporter.py` (a Prometheus-style metrics
exporter for a StatefulSet of Bitcoin testnet nodes) and proofs of the
specification claims about it.

Modelling conventions:
* Decoded JSON values (what `json.loads` produces) are the inductive `Json`;
  JSON numbers are modelled as rationals (Python int/float values), and
  Python `None` (JSON `null`) is `Json.null`.
* The network is an oracle `Net`: for each HTTP request and each attempt
  index it either raises (connection error, timeout, non-2xx status,
  undecodable body — everything `urllib`/`json.loads` can throw) or yields a
  decoded response body.
* Python statements that can raise inside a `try` block are modelled in
  `Except Unit`; the surrounding `except` clause is the `Except.error` match
  arm of the embedding.
* `os.environ` is a partial map `Config`; `socket.gethostbyname` is an oracle
  `resolve : String → Bool` (`false` = `socket.gaierror`).
-/

namespace BitcoinExporter

/-- A decoded JSON value, the result of Python `json.loads`.  Objects are
association lists of the (unique) dict keys in insertion order. -/
inductive Json where
  | null
  | bool (b : Bool)
  | num (q : ℚ)
  | str (s : String)
  | arr (elems : List Json)
  | obj (fields : List (String × Json))

/-- First-match lookup in a decoded JSON object (dict keys are unique after
`json.loads`, so first match equals dict lookup). -/
def lookupJ : List (String × Json) → String → Option Json
  | [], _ => none
  | (k, v) :: rest, key => if k = key then some v else lookupJ rest key

/-- Python `d.get(key, dflt)` on a dict known to be a dict. -/
def lookupD (fields : List (String × Json)) (key : String) (dflt : Json) : Json :=
  (lookupJ fields key).getD dflt

/-- Python truthiness `bool(x)` of a decoded JSON value. -/
def truthy : Json → Bool
  | .null => false
  | .bool b => b
  | .num q => q != 0
  | .str s => s != ""
  | .arr elems => !elems.isEmpty
  | .obj fields => !fields.isEmpty

/-- Truthiness of a value that may be Python `None`. -/
def truthyOpt : Option Json → Bool
  | none => false
  | some j => truthy j

/-- Collapse JSON `null` to Python `None`: a function returning the decoded
`result` field returns `None` both when the field is missing and when it is
`null`. -/
def jsonToOption : Json → Option Json
  | .null => none
  | j => some j

/-- Python `x.get(key, dflt)`: succeeds on a dict, raises `AttributeError`
(modelled as `Except.error ()`) on any other value. -/
def pyDictGet (j : Json) (key : String) (dflt : Json) : Except Unit Json :=
  match j with
  | .obj fields => .ok (lookupD fields key dflt)
  | _ => .error ()

/-- Python `len(x)`: defined for strings, lists and dicts, raises `TypeError`
(modelled as `Except.error ()`) on numbers, booleans and `None`. -/
def pyLen : Json → Except Unit Nat
  | .str s => .ok s.length
  | .arr elems => .ok elems.length
  | .obj fields => .ok fields.length
  | _ => .error ()

mutual
/-- Models Python `str()` applied to a decoded JSON value inside an f-string.
Numeric formatting is abstracted to the canonical rational representation; no
claim depends on the exact numeral text. -/
def pyStr : Json → String
  | .null => "None"
  | .bool b => if b then "True" else "False"
  | .num q => toString q
  | .str s => s
  | .arr elems => "[" ++ pyStrItems elems ++ "]"
  | .obj fields => "\x7b" ++ pyStrFields fields ++ "\x7d"
/-- Comma-separated rendering of list items, part of the `pyStr` model. -/
def pyStrItems : List Json → String
  | [] => ""
  | [j] => pyStr j
  | j :: rest => pyStr j ++ ", " ++ pyStrItems rest
/-- Comma-separated rendering of dict fields, part of the `pyStr` model. -/
def pyStrFields : List (String × Json) → String
  | [] => ""
  | [(k, v)] => k ++ ": " ++ pyStr v
  | (k, v) :: rest => k ++ ": " ++ pyStr v ++ ", " ++ pyStrFields rest
end

/-- `os.environ`: a partial map from variable names to values. -/
def Config := String → Option String

/-- `os.getenv(key, dflt)`. -/
def getenv (env : Config) (key dflt : String) : String := (env key).getD dflt

/-- Python `a or b` for an optional string `a`: both `None` and `""` are
falsy. -/
def strOr (a : Option String) (b : String) : String :=
  match a with
  | some s => if s = "" then b else s
  | none => b

/-- The HTTP POST request built by `make_bitcoin_rpc_call` (lines 26-47):
URL, `Content-Type` header, HTTP Basic credentials (the `Authorization`
header carries `base64(user:password)`, modelled by carrying the credentials
themselves), and the JSON-RPC envelope. -/
structure RpcRequest where
  url : String
  contentType : String
  authUser : String
  authPassword : String
  body : Json

/-- What the network does with one request attempt: either some exception is
raised inside `urlopen`/`read`/`json.loads` (connection error, timeout,
non-2xx status, undecodable body), or a decoded JSON body is produced. -/
inductive NetResp where
  | raise
  | body (j : Json)

/-- The network oracle: the response to a request on its n-th attempt. -/
def Net := RpcRequest → Nat → NetResp

/-- Lines 20-47 of `make_bitcoin_rpc_call`: resolve configuration, build the
URL and the JSON-RPC 1.0 envelope `{jsonrpc:"1.0", id:"exporter", method,
params}` (with `params or []`). -/
def buildRpcRequest (env : Config) (method : String) (params : Option (List Json))
    (target_host : Option String) : RpcRequest :=
  let host := strOr target_host (getenv env "BITCOIN_HOST" "bitcoin-stack.bitcoin.svc.cluster.local")
  let port := getenv env "BITCOIN_PORT" "18332"
  let user := getenv env "BITCOIN_USER" "bitcoin"
  let password := getenv env "BITCOIN_PASSWORD" "bitcoin"
  let url := "http://" ++ host ++ ":" ++ port
  let rpc_request : Json := .obj
    [("jsonrpc", .str "1.0"), ("id", .str "exporter"),
     ("method", .str method), ("params", .arr (params.getD []))]
  { url := url, contentType := "application/json",
    authUser := user, authPassword := password, body := rpc_request }

/-- `make_bitcoin_rpc_call` (lines 17-56).  The whole body is one `try`
block: a single network attempt (attempt index 0) either raises or yields a
decoded body `result`; `result.get('result', None)` raises `AttributeError`
when the body is not a dict and otherwise extracts the `result` field (JSON
`null` decoding to Python `None`).  The `except` clause turns any raised
error into `None`. -/
def make_bitcoin_rpc_call (env : Config) (net : Net) (method : String)
    (params : Option (List Json)) (target_host : Option String) : Option Json :=
  let attempt : Except Unit (Option Json) :=
    match net (buildRpcRequest env method params target_host) 0 with
    | .raise => .error ()
    | .body result =>
      match result with
      | .obj fields => .ok (jsonToOption (lookupD fields "result" .null))
      | _ => .error ()
  match attempt with
  | .ok v => v
  | .error _ => none

/-- Modelled from the spec (§4.1, §7): the RPC client returns Absent on any
failure and otherwise exactly the `result` field of the decoded envelope,
Absent when that field is absent.  Reference definition for the C5
refinement theorem. -/
def rpc_result_spec : NetResp → Option Json
  | .raise => none
  | .body envl =>
    match envl with
    | .obj fields => jsonToOption (lookupD fields "result" .null)
    | _ => none

/-- The candidate hostname for pod ordinal `i` (lines 63-73):
`<service>-<i>.<service>.<namespace>.svc.cluster.local` with service name and
namespace taken from configuration. -/
def pod_hostname (env : Config) (i : Nat) : String :=
  let service_name := getenv env "BITCOIN_SERVICE_NAME" "bitcoin-stack"
  let base_host := service_name ++ "." ++ getenv env "BITCOIN_NAMESPACE" "bitcoin" ++ ".svc.cluster.local"
  service_name ++ "-" ++ toString i ++ "." ++ base_host

/-- The `for i in range(10)` loop of `discover_bitcoin_pods` (lines 72-83),
started at ordinal `i` with `fuel` iterations left: a successful resolution
appends the hostname and continues, a `socket.gaierror` breaks out of the
loop. -/
def discoverFrom (resolve : String → Bool) (env : Config) (i : Nat) : Nat → List String
  | 0 => []
  | fuel + 1 =>
    let pod_host := pod_hostname env i
    if resolve pod_host then pod_host :: discoverFrom resolve env (i + 1) fuel
    else []

/-- `discover_bitcoin_pods` (lines 58-88): probe ordinals 0..9 in order,
stopping at the first resolution failure. -/
def discover_bitcoin_pods (resolve : String → Bool) (env : Config) : List String :=
  discoverFrom resolve env 0 10

/-- The per-pod metrics dict returned by `get_pod_metrics`
(lines 121-130 / 133-142). -/
structure MetricsRecord where
  pod : String
  host : String
  blocks : Json
  peers : Nat
  connections : Json
  difficulty : Json
  verification_progress : Json
  healthy : Bool

/-- The record built in the `except` branch of `get_pod_metrics`
(lines 131-142): all numeric fields zero, unhealthy. -/
def unhealthy_record (pod_host : String) : MetricsRecord :=
  { pod := (pod_host.splitOn ".").headD "", host := pod_host,
    blocks := .num 0, peers := 0, connections := .num 0,
    difficulty := .num 0, verification_progress := .num 0, healthy := false }

/-- Lines 94-102 of `get_pod_metrics`: post-process the blockchain-info
result.  A truthy result is read with `data.get(...)` (which raises on a
non-dict); a falsy or absent result yields zeros. -/
def blockchain_step (data : Option Json) : Except Unit (Json × Json × Json) :=
  match data with
  | some d =>
    if truthy d then
      match pyDictGet d "blocks" (.num 0), pyDictGet d "difficulty" (.num 0),
          pyDictGet d "verificationprogress" (.num 0) with
      | .ok blocks, .ok difficulty, .ok verification_progress =>
        .ok (blocks, difficulty, verification_progress)
      | _, _, _ => .error ()
    else .ok (.num 0, .num 0, .num 0)
  | none => .ok (.num 0, .num 0, .num 0)

/-- Lines 104-109 of `get_pod_metrics`: peer count is `len(peers)` for a
truthy result (raising on an unsized value), else 0. -/
def peer_step (peersRes : Option Json) : Except Unit Nat :=
  match peersRes with
  | some peers => if truthy peers then pyLen peers else .ok 0
  | none => .ok 0

/-- Lines 111-116 of `get_pod_metrics`: connection count is
`network_data.get('connections', 0)` for a truthy result (raising on a
non-dict), else 0. -/
def network_step (network_data : Option Json) : Except Unit Json :=
  match network_data with
  | some network_data =>
    if truthy network_data then pyDictGet network_data "connections" (.num 0)
    else .ok (.num 0)
  | none => .ok (.num 0)

/-- `get_pod_metrics` (lines 90-142).  The `try` block issues the three RPC
calls and post-processes each (`blockchain_step`, `peer_step`,
`network_step`); if any post-processing step raises, control reaches the
`except` branch, which returns the all-zero unhealthy record.  Otherwise the
record is built with `healthy = (data is not None)` and the pod short name
`pod_host.split('.')[0]`. -/
def get_pod_metrics (env : Config) (net : Net) (pod_host : String) : MetricsRecord :=
  let data := make_bitcoin_rpc_call env net "getblockchaininfo" none (some pod_host)
  let peersRes := make_bitcoin_rpc_call env net "getpeerinfo" none (some pod_host)
  let network_data := make_bitcoin_rpc_call env net "getnetworkinfo" none (some pod_host)
  match blockchain_step data, peer_step peersRes, network_step network_data with
  | .ok tri, .ok peer_count, .ok connections =>
    { pod := (pod_host.splitOn ".").headD "", host := pod_host,
      blocks := tri.1, peers := peer_count, connections := connections,
      difficulty := tri.2.1, verification_progress := tri.2.2,
      healthy := data.isSome }
  | _, _, _ => unhealthy_record pod_host

/-- The f-string block appended per pod by the `/metrics` handler
(lines 172-194): six HELP/TYPE/sample stanzas labelled with the pod short
name.  Literal braces of the exposition format appear as their escape codes.
The chunk boundaries below are exactly the f-string interpolation points. -/
def render_pod (pod_metrics : MetricsRecord) : String :=
  let pod_name := pod_metrics.pod
  let pod_label := "pod=\"" ++ pod_name ++ "\""
  "# HELP bitcoin_blocks Current block height\n# TYPE bitcoin_blocks gauge\nbitcoin_blocks\x7b" ++
    pod_label ++ "\x7d " ++ pyStr pod_metrics.blocks ++
  "\n# HELP bitcoin_peers Number of connected peers\n# TYPE bitcoin_peers gauge\nbitcoin_peers\x7b" ++
    pod_label ++ "\x7d " ++ toString pod_metrics.peers ++
  "\n# HELP bitcoin_connections Number of network connections\n# TYPE bitcoin_connections gauge\nbitcoin_connections\x7b" ++
    pod_label ++ "\x7d " ++ pyStr pod_metrics.connections ++
  "\n# HELP bitcoin_difficulty Current network difficulty\n# TYPE bitcoin_difficulty gauge\nbitcoin_difficulty\x7b" ++
    pod_label ++ "\x7d " ++ pyStr pod_metrics.difficulty ++
  "\n# HELP bitcoin_verification_progress Blockchain verification progress (0-1)\n# TYPE bitcoin_verification_progress gauge\nbitcoin_verification_progress\x7b" ++
    pod_label ++ "\x7d " ++ pyStr pod_metrics.verification_progress ++
  "\n# HELP bitcoin_pod_healthy Bitcoin pod health status\n# TYPE bitcoin_pod_healthy gauge\nbitcoin_pod_healthy\x7b" ++
    pod_label ++ "\x7d " ++ (if pod_metrics.healthy then "1" else "0") ++ "\n"

/-- Lines 170-194: `metrics_output` starts empty and the loop appends one
`render_pod` block per collected record. -/
def metrics_output (all_metrics : List MetricsRecord) : String :=
  all_metrics.foldl (fun acc pod_metrics => acc ++ render_pod pod_metrics) ""

/-- Lines 152-155: the fallback hostname substituted when discovery returns
no pods: ordinal 0 of the configured service and namespace. -/
def fallback_host (env : Config) : String :=
  let service_name := getenv env "BITCOIN_SERVICE_NAME" "bitcoin-stack"
  let namespace_ := getenv env "BITCOIN_NAMESPACE" "bitcoin"
  service_name ++ "-0." ++ service_name ++ "." ++ namespace_ ++ ".svc.cluster.local"

/-- Lines 149-157: the pod list a `/metrics` scrape collects from — the
discovered pods, or the single fallback pod when discovery found none. -/
def pods_for_scrape (env : Config) (resolve : String → Bool) : List String :=
  let pods := discover_bitcoin_pods resolve env
  if pods.isEmpty then [fallback_host env] else pods

/-- One HTTP response of the handler: status code, optional `Content-type`
header, body text (written UTF-8 encoded). -/
structure HttpResponse where
  status : Nat
  contentType : Option String
  body : String

/-- `BitcoinMetricsHandler.do_GET` (lines 145-211).  The
`ThreadPoolExecutor`/`as_completed` fan-out collects one record per pod; the
completion order across pods is scheduler-dependent and is modelled by the
`completion_order` parameter (a permutation of the submitted results;
theorems that need this assume `List.Perm`). -/
def do_GET (env : Config) (resolve : String → Bool) (net : Net)
    (completion_order : List MetricsRecord → List MetricsRecord) (path : String) : HttpResponse :=
  if path = "/metrics" then
    let pods := pods_for_scrape env resolve
    let all_metrics := completion_order (pods.map (get_pod_metrics env net))
    { status := 200, contentType := some "text/plain", body := metrics_output all_metrics }
  else if path = "/health" then
    { status := 200, contentType := some "text/plain", body := "OK" }
  else
    { status := 404, contentType := none, body := "" }

/-- Modelled from the spec (§4.5): one well-formed metric-family block of the
exposition format — a HELP line, a gauge TYPE line, and one sample line in
`name{pod="<pod>"} <value>` syntax.  Reference shape for the C6 theorem. -/
def fam (name help pod value : String) : String :=
  "# HELP " ++ name ++ " " ++ help ++ "\n" ++ "# TYPE " ++ name ++ " gauge\n" ++
  name ++ "\x7b" ++ ("pod=\"" ++ pod ++ "\"") ++ "\x7d " ++ value ++ "\n"

/-- A call result whose truthy values the dict post-processing survives: the
blockchain-info and network-info handlers call `.get` on any truthy result,
which raises unless that result is a mapping. -/
def dict_or_falsy : Option Json → Bool
  | none => true
  | some (.obj _) => true
  | some j => !truthy j

/-- A call result whose truthy values `len` survives: the peer-info handler
calls `len` on any truthy result, which raises unless the result is a
string, list or dict. -/
def sized_or_falsy : Option Json → Bool
  | none => true
  | some (.str _) => true
  | some (.arr _) => true
  | some (.obj _) => true
  | some j => !truthy j

/-- Whether a JSON value is a number lying in the closed interval [0,1]. -/
def inUnitIntervalB : Json → Bool
  | .num q => decide (0 ≤ q) && decide (q ≤ 1)
  | _ => false

/-! Concrete fixtures used by witnesses and counterexamples. -/

/-- An empty environment: every configuration variable takes its default. -/
def cfg0 : Config := fun _ => none

/-- A network where every call fails (connection error / timeout). -/
def netFail : Net := fun _ _ => .raise

/-- The RPC method name carried in a request envelope. -/
def method_of (req : RpcRequest) : Option Json :=
  match req.body with
  | .obj fields => lookupJ fields "method"
  | _ => none

/-- A network that dispatches on the RPC method of the request and is
attempt-independent. -/
def netByMethod (f : String → NetResp) : Net := fun req _ =>
  match method_of req with
  | some (.str m) => f m
  | _ => .raise

/-- A node whose `getblockchaininfo` envelope is `{"result": 1}` (a truthy
non-mapping result); the other calls fail. -/
def netTruthyNonDict : Net := netByMethod fun m =>
  if m = "getblockchaininfo" then .body (.obj [("result", .num 1)]) else .raise

/-- A node whose `getblockchaininfo` envelope is `{"result": {}}` (a present
but falsy result); the other calls fail. -/
def netEmptyDict : Net := netByMethod fun m =>
  if m = "getblockchaininfo" then .body (.obj [("result", .obj [])]) else .raise

/-- A node reporting `verificationprogress = 2`; the other calls fail. -/
def netProgressTwo : Net := netByMethod fun m =>
  if m = "getblockchaininfo" then
    .body (.obj [("result", .obj [("verificationprogress", .num 2)])])
  else .raise

/-- A fixed pod hostname used by concrete evaluations. -/
def hostFx : String := "bitcoin-stack-0.bitcoin-stack.bitcoin.svc.cluster.local"

/-- A resolver under which exactly pod ordinals 0, 1, 2 of the default
configuration resolve. -/
def resolve3 : String → Bool := fun h =>
  [pod_hostname cfg0 0, pod_hostname cfg0 1, pod_hostname cfg0 2].contains h

/-- A sample healthy metrics record, used to instantiate render theorems. -/
def rec0 : MetricsRecord :=
  { pod := "bitcoin-stack-0", host := hostFx, blocks := .num 800000, peers := 8,
    connections := .num 10, difficulty := .num 55, verification_progress := .num 1,
    healthy := true }

/-! ## Helper lemmas about the renderer -/

lemma string_append_empty (s : String) : s ++ "" = s := by
  apply String.ext
  simp

lemma string_append_newline_ne (s : String) : s ++ "\n" ≠ "" := by
  intro h
  have h2 : (s ++ "\n").data = ([] : List Char) := by rw [h]
  rw [String.data_append] at h2
  exact absurd (List.append_eq_nil.mp h2).2 (by decide)

lemma string_empty_append (s : String) : "" ++ s = s := rfl

lemma foldl_append_go (g : MetricsRecord → String) (rs : List MetricsRecord) :
    ∀ acc : String,
      rs.foldl (fun a m => a ++ g m) acc = acc ++ rs.foldl (fun a m => a ++ g m) "" := by
  induction rs with
  | nil => intro acc; exact (string_append_empty acc).symm
  | cons r rs ih =>
    intro acc
    rw [List.foldl_cons, List.foldl_cons, ih (acc ++ g r), ih ("" ++ g r),
      string_empty_append, String.append_assoc]

lemma metrics_output_cons (r : MetricsRecord) (rs : List MetricsRecord) :
    metrics_output (r :: rs) = render_pod r ++ metrics_output rs := by
  simp only [metrics_output, List.foldl_cons]
  rw [foldl_append_go _ rs ("" ++ render_pod r), string_empty_append]

lemma metrics_output_append_eq (rs ss : List MetricsRecord) :
    metrics_output (rs ++ ss) = metrics_output rs ++ metrics_output ss := by
  simp only [metrics_output, List.foldl_append]
  exact foldl_append_go _ ss _

set_option maxRecDepth 4000 in
set_option maxHeartbeats 1000000 in
lemma render_pod_eq_fams (r : MetricsRecord) :
    render_pod r =
      fam "bitcoin_blocks" "Current block height" r.pod (pyStr r.blocks) ++
      fam "bitcoin_peers" "Number of connected peers" r.pod (toString r.peers) ++
      fam "bitcoin_connections" "Number of network connections" r.pod (pyStr r.connections) ++
      fam "bitcoin_difficulty" "Current network difficulty" r.pod (pyStr r.difficulty) ++
      fam "bitcoin_verification_progress" "Blockchain verification progress (0-1)" r.pod
        (pyStr r.verification_progress) ++
      fam "bitcoin_pod_healthy" "Bitcoin pod health status" r.pod
        (if r.healthy then "1" else "0") := by
  unfold render_pod fam
  simp only [String.append_assoc]
  rfl

lemma render_pod_newline (r : MetricsRecord) : ∃ A, render_pod r = A ++ "\n" := by
  unfold render_pod
  exact ⟨_, rfl⟩

lemma metrics_output_wf (rs : List MetricsRecord) (hne : rs ≠ []) :
    metrics_output rs ≠ "" ∧ ∃ A, metrics_output rs = A ++ "\n" := by
  induction rs with
  | nil => exact absurd rfl hne
  | cons r rs ih =>
    rw [metrics_output_cons]
    obtain ⟨A, hA⟩ := render_pod_newline r
    cases rs with
    | nil =>
      rw [show metrics_output [] = "" from rfl, string_append_empty, hA]
      exact ⟨string_append_newline_ne A, A, rfl⟩
    | cons r2 rs2 =>
      obtain ⟨hne2, B, hB⟩ := ih (by simp)
      rw [hB, ← String.append_assoc]
      exact ⟨string_append_newline_ne _, _, rfl⟩

/-! ## Claims about the renderer -/

/-- Claim C10: the renderer is a concatenation homomorphism over the record
list — `render(rs ++ ss) = render(rs) ++ render(ss)`, `render([]) = ""`, one
fixed block per record — and, were the collected record list empty, the
`/metrics` response would be a 200 with an empty body. -/
theorem render_concat_hom :
    metrics_output [] = "" ∧
    (∀ rs ss : List MetricsRecord,
      metrics_output (rs ++ ss) = metrics_output rs ++ metrics_output ss) ∧
    (∀ r : MetricsRecord, metrics_output [r] = render_pod r) ∧
    (∀ (env : Config) (resolve : String → Bool) (net : Net),
      do_GET env resolve net (fun _ => []) "/metrics" =
        { status := 200, contentType := some "text/plain", body := "" }) := by
  refine ⟨rfl, metrics_output_append_eq, ?_, ?_⟩
  · intro r
    rw [metrics_output_cons, show metrics_output [] = "" from rfl, string_append_empty]
  · intro env resolve net
    rfl

/-- Claim C6: for every non-empty record list, the rendered output is
non-empty, newline-terminated text in which each record contributes one
block, and each record's block consists of exactly the six metric families
`bitcoin_blocks`, `bitcoin_peers`, `bitcoin_connections`,
`bitcoin_difficulty`, `bitcoin_verification_progress`, `bitcoin_pod_healthy`,
each a HELP line, a gauge TYPE line, and one `name{pod="…"} value` sample
line, with the health sample `1` for healthy and `0` otherwise.  (Lean
strings are Unicode text; the final `.encode()` to UTF-8 bytes is outside
the model.) -/
theorem render_wellformed (rs : List MetricsRecord) (hne : rs ≠ []) :
    metrics_output rs ≠ "" ∧
    (∃ A, metrics_output rs = A ++ "\n") ∧
    (∀ r ∈ rs, ∃ u v, metrics_output rs = u ++ render_pod r ++ v) ∧
    (∀ r : MetricsRecord, render_pod r =
      fam "bitcoin_blocks" "Current block height" r.pod (pyStr r.blocks) ++
      fam "bitcoin_peers" "Number of connected peers" r.pod (toString r.peers) ++
      fam "bitcoin_connections" "Number of network connections" r.pod (pyStr r.connections) ++
      fam "bitcoin_difficulty" "Current network difficulty" r.pod (pyStr r.difficulty) ++
      fam "bitcoin_verification_progress" "Blockchain verification progress (0-1)" r.pod
        (pyStr r.verification_progress) ++
      fam "bitcoin_pod_healthy" "Bitcoin pod health status" r.pod
        (if r.healthy then "1" else "0")) := by
  obtain ⟨h1, h2⟩ := metrics_output_wf rs hne
  refine ⟨h1, h2, ?_, render_pod_eq_fams⟩
  intro r hr
  obtain ⟨s, t, hst⟩ := List.append_of_mem hr
  refine ⟨metrics_output s, metrics_output t, ?_⟩
  rw [hst, metrics_output_append_eq, metrics_output_cons, String.append_assoc]

/-- Witness for C6 at a concrete record list. -/
theorem render_wellformed_witness : metrics_output [rec0] ≠ "" :=
  (render_wellformed [rec0] (List.cons_ne_nil rec0 [])).1

/-! ## Helper lemmas about discovery -/

lemma discoverFrom_length_le (resolve : String → Bool) (env : Config) (fuel : Nat) :
    ∀ i, (discoverFrom resolve env i fuel).length ≤ fuel := by
  induction fuel with
  | zero => intro i; simp [discoverFrom]
  | succ n ih =>
    intro i
    simp only [discoverFrom]
    split
    · simpa using Nat.succ_le_succ (ih (i + 1))
    · simp

lemma discoverFrom_all (resolve : String → Bool) (env : Config) (fuel : Nat) :
    ∀ i, (∀ j, j < fuel → resolve (pod_hostname env (i + j)) = true) →
      discoverFrom resolve env i fuel =
        (List.range fuel).map (fun j => pod_hostname env (i + j)) := by
  induction fuel with
  | zero => intro i _; rfl
  | succ n ih =>
    intro i h
    have h0 : resolve (pod_hostname env i) = true := by
      have := h 0 (Nat.succ_pos n); simpa using this
    simp only [discoverFrom, h0, if_true]
    rw [ih (i + 1) (fun j hj => by
      have := h (j + 1) (by omega)
      rwa [show i + (j + 1) = i + 1 + j by omega] at this)]
    rw [List.range_succ_eq_map, List.map_cons, List.map_map]
    refine congrArg₂ _ (by rw [Nat.add_zero]) (List.map_congr_left fun a _ => ?_)
    show pod_hostname env (i + 1 + a) = pod_hostname env (i + a.succ)
    rw [show i + 1 + a = i + a.succ by omega]

lemma discoverFrom_stop (resolve : String → Bool) (env : Config) (fuel : Nat) :
    ∀ i k, k < fuel → (∀ j, j < k → resolve (pod_hostname env (i + j)) = true) →
      resolve (pod_hostname env (i + k)) = false →
      discoverFrom resolve env i fuel =
        (List.range k).map (fun j => pod_hostname env (i + j)) := by
  induction fuel with
  | zero => intro i k hk; omega
  | succ n ih =>
    intro i k hk hres hfail
    cases k with
    | zero =>
      rw [Nat.add_zero] at hfail
      simp only [discoverFrom, hfail]
      rfl
    | succ m =>
      have h0 : resolve (pod_hostname env i) = true := by
        have := hres 0 (Nat.succ_pos m); simpa using this
      simp only [discoverFrom, h0, if_true]
      rw [ih (i + 1) m (by omega)
        (fun j hj => by
          have := hres (j + 1) (by omega)
          rwa [show i + (j + 1) = i + 1 + j by omega] at this)
        (by rwa [show i + 1 + m = i + m.succ by omega])]
      rw [List.range_succ_eq_map, List.map_cons, List.map_map]
      refine congrArg₂ _ (by rw [Nat.add_zero]) (List.map_congr_left fun a _ => ?_)
      show pod_hostname env (i + 1 + a) = pod_hostname env (i + a.succ)
      rw [show i + 1 + a = i + a.succ by omega]

lemma discoverFrom_congr (resolve resolve2 : String → Bool) (env : Config) (fuel : Nat) :
    ∀ i, (∀ j, j < fuel → resolve2 (pod_hostname env (i + j)) = resolve (pod_hostname env (i + j))) →
      discoverFrom resolve2 env i fuel = discoverFrom resolve env i fuel := by
  induction fuel with
  | zero => intro i _; rfl
  | succ n ih =>
    intro i h
    have h0 : resolve2 (pod_hostname env i) = resolve (pod_hostname env i) := by
      have := h 0 (Nat.succ_pos n); simpa using this
    simp only [discoverFrom, h0]
    split
    · rw [ih (i + 1) (fun j hj => by
        have := h (j + 1) (by omega)
        rwa [show i + (j + 1) = i + 1 + j by omega] at this)]
    · rfl

/-! ## Claims about discovery and aggregation -/

/-- Claim C4: discovery contiguity — if ordinals `0..k-1` resolve and `k`
does not (`k < 10`), discovery returns exactly the `k` hostnames in
ascending ordinal order; discovery cap — if all of `0..9` resolve, discovery
returns exactly 10 endpoints; and the result never depends on resolution
beyond ordinal 9 (ordinal 10 is never probed). -/
theorem discovery_contiguity_and_cap (env : Config) (resolve : String → Bool) :
    (∀ k, k < 10 → (∀ i, i < k → resolve (pod_hostname env i) = true) →
      resolve (pod_hostname env k) = false →
      discover_bitcoin_pods resolve env = (List.range k).map (pod_hostname env)) ∧
    ((∀ i, i < 10 → resolve (pod_hostname env i) = true) →
      discover_bitcoin_pods resolve env = (List.range 10).map (pod_hostname env)) ∧
    (∀ resolve2 : String → Bool,
      (∀ i, i < 10 → resolve2 (pod_hostname env i) = resolve (pod_hostname env i)) →
      discover_bitcoin_pods resolve2 env = discover_bitcoin_pods resolve env) := by
  refine ⟨?_, ?_, ?_⟩
  · intro k hk hres hfail
    unfold discover_bitcoin_pods
    rw [discoverFrom_stop resolve env 10 0 k hk
      (fun j hj => by simpa using hres j hj) (by simpa using hfail)]
    exact List.map_congr_left fun a _ => by rw [Nat.zero_add]
  · intro hres
    unfold discover_bitcoin_pods
    rw [discoverFrom_all resolve env 10 0 (fun j hj => by simpa using hres j hj)]
    exact List.map_congr_left fun a _ => by rw [Nat.zero_add]
  · intro resolve2 h
    unfold discover_bitcoin_pods
    exact discoverFrom_congr resolve resolve2 env 10 0 (fun j hj => by simpa using h j hj)

/-- Witness for C4: under `resolve3` exactly ordinals 0..2 resolve, and
discovery returns those three hostnames in order. -/
theorem discovery_contiguity_and_cap_witness :
    discover_bitcoin_pods resolve3 cfg0 = (List.range 3).map (pod_hostname cfg0) :=
  (discovery_contiguity_and_cap cfg0 resolve3).1 3 (by decide) (by decide) (by decide)

/-- Claim C1: a `/metrics` scrape collects exactly `max(N,1)` records where
`N` is the number of discovered endpoints (`N ≤ 10` by the discovery cap),
one per endpoint regardless of which RPC calls fail (the record list is a
permutation of one collected record per scraped pod, whatever the network
oracle does); when discovery returns zero endpoints the single fallback
endpoint `<service>-0.<service>.<namespace>.svc.cluster.local` is
substituted before collection. -/
theorem aggregation_completeness (env : Config) (resolve : String → Bool) (net : Net)
    (ms : List MetricsRecord)
    (hms : ms.Perm ((pods_for_scrape env resolve).map (get_pod_metrics env net))) :
    ms.length = max (discover_bitcoin_pods resolve env).length 1 ∧
    (discover_bitcoin_pods resolve env).length ≤ 10 ∧
    (discover_bitcoin_pods resolve env = [] → pods_for_scrape env resolve = [fallback_host env]) ∧
    fallback_host env =
      getenv env "BITCOIN_SERVICE_NAME" "bitcoin-stack" ++ "-0." ++
      getenv env "BITCOIN_SERVICE_NAME" "bitcoin-stack" ++ "." ++
      getenv env "BITCOIN_NAMESPACE" "bitcoin" ++ ".svc.cluster.local" := by
  have hlen := hms.length_eq
  rw [List.length_map] at hlen
  refine ⟨?_, discoverFrom_length_le resolve env 10 0, ?_, rfl⟩
  · rw [hlen]
    unfold pods_for_scrape
    rcases he : (discover_bitcoin_pods resolve env).isEmpty with _ | _
    · have hpos : 1 ≤ (discover_bitcoin_pods resolve env).length := by
        cases hl : discover_bitcoin_pods resolve env with
        | nil => rw [hl] at he; simp at he
        | cons a as => simp
      rw [if_neg (by rw [he]; exact Bool.false_ne_true)]
      omega
    · have h0 : (discover_bitcoin_pods resolve env).length = 0 := by
        cases hl : discover_bitcoin_pods resolve env with
        | nil => rfl
        | cons a as => rw [hl] at he; simp at he
      rw [if_pos he]
      simp [h0]
  · intro h
    unfold pods_for_scrape
    rw [h]
    rfl

/-- Witness for C1: three discovered pods, all RPC calls failing, collected
in submission order. -/
theorem aggregation_completeness_witness :
    ((pods_for_scrape cfg0 resolve3).map (get_pod_metrics cfg0 netFail)).length =
      max (discover_bitcoin_pods resolve3 cfg0).length 1 :=
  (aggregation_completeness cfg0 resolve3 netFail _ (List.Perm.refl _)).1

/-! ## Helper lemmas about the collector's three post-processing steps -/

lemma blockchain_step_none : blockchain_step none = .ok (.num 0, .num 0, .num 0) := rfl

lemma peer_step_none : peer_step none = .ok 0 := rfl

lemma network_step_none : network_step none = .ok (.num 0) := rfl

lemma blockchain_step_obj (fields : List (String × Json)) :
    blockchain_step (some (.obj fields)) =
      .ok (lookupD fields "blocks" (.num 0), lookupD fields "difficulty" (.num 0),
        lookupD fields "verificationprogress" (.num 0)) := by
  cases fields <;> rfl

lemma peer_step_arr (l : List Json) : peer_step (some (.arr l)) = .ok l.length := by
  cases l <;> rfl

lemma network_step_obj (fields : List (String × Json)) :
    network_step (some (.obj fields)) = .ok (lookupD fields "connections" (.num 0)) := by
  cases fields <;> rfl

lemma blockchain_step_falsy (j : Json) (h : truthy j = false) :
    blockchain_step (some j) = .ok (.num 0, .num 0, .num 0) := by
  simp [blockchain_step, h]

lemma peer_step_falsy (j : Json) (h : truthy j = false) : peer_step (some j) = .ok 0 := by
  simp [peer_step, h]

lemma network_step_falsy (j : Json) (h : truthy j = false) :
    network_step (some j) = .ok (.num 0) := by
  simp [network_step, h]

lemma blockchain_step_ok_of_shaped (data : Option Json) (h : dict_or_falsy data = true) :
    ∃ t, blockchain_step data = .ok t := by
  match data with
  | none => exact ⟨_, rfl⟩
  | some (.obj fields) => exact ⟨_, blockchain_step_obj fields⟩
  | some (.null) => exact ⟨_, rfl⟩
  | some (.bool b) =>
    have hb : truthy (.bool b) = false := by
      have h2 : (!truthy (.bool b)) = true := h
      cases hq : truthy (.bool b)
      · rfl
      · rw [hq] at h2; exact absurd h2 (by decide)
    exact ⟨_, blockchain_step_falsy _ hb⟩
  | some (.num q) =>
    have hb : truthy (.num q) = false := by
      have h2 : (!truthy (.num q)) = true := h
      cases hq : truthy (.num q)
      · rfl
      · rw [hq] at h2; exact absurd h2 (by decide)
    exact ⟨_, blockchain_step_falsy _ hb⟩
  | some (.str s) =>
    have hb : truthy (.str s) = false := by
      have h2 : (!truthy (.str s)) = true := h
      cases hq : truthy (.str s)
      · rfl
      · rw [hq] at h2; exact absurd h2 (by decide)
    exact ⟨_, blockchain_step_falsy _ hb⟩
  | some (.arr l) =>
    have hb : truthy (.arr l) = false := by
      have h2 : (!truthy (.arr l)) = true := h
      cases hq : truthy (.arr l)
      · rfl
      · rw [hq] at h2; exact absurd h2 (by decide)
    exact ⟨_, blockchain_step_falsy _ hb⟩

lemma peer_step_ok_of_shaped (p : Option Json) (h : sized_or_falsy p = true) :
    ∃ k, peer_step p = .ok k := by
  match p with
  | none => exact ⟨_, rfl⟩
  | some (.str s) =>
    cases hs : truthy (.str s)
    · exact ⟨_, peer_step_falsy _ hs⟩
    · exact ⟨s.length, by simp [peer_step, hs, pyLen]⟩
  | some (.arr l) => exact ⟨_, peer_step_arr l⟩
  | some (.obj fields) =>
    cases hs : truthy (.obj fields)
    · exact ⟨_, peer_step_falsy _ hs⟩
    · exact ⟨fields.length, by simp [peer_step, hs, pyLen]⟩
  | some (.null) => exact ⟨_, rfl⟩
  | some (.bool b) =>
    have hb : truthy (.bool b) = false := by
      have h2 : (!truthy (.bool b)) = true := h
      cases hq : truthy (.bool b)
      · rfl
      · rw [hq] at h2; exact absurd h2 (by decide)
    exact ⟨_, peer_step_falsy _ hb⟩
  | some (.num q) =>
    have hb : truthy (.num q) = false := by
      have h2 : (!truthy (.num q)) = true := h
      cases hq : truthy (.num q)
      · rfl
      · rw [hq] at h2; exact absurd h2 (by decide)
    exact ⟨_, peer_step_falsy _ hb⟩

lemma network_step_ok_of_shaped (nd : Option Json) (h : dict_or_falsy nd = true) :
    ∃ c, network_step nd = .ok c := by
  match nd with
  | none => exact ⟨_, rfl⟩
  | some (.obj fields) => exact ⟨_, network_step_obj fields⟩
  | some (.null) => exact ⟨_, rfl⟩
  | some (.bool b) =>
    have hb : truthy (.bool b) = false := by
      have h2 : (!truthy (.bool b)) = true := h
      cases hq : truthy (.bool b)
      · rfl
      · rw [hq] at h2; exact absurd h2 (by decide)
    exact ⟨_, network_step_falsy _ hb⟩
  | some (.num q) =>
    have hb : truthy (.num q) = false := by
      have h2 : (!truthy (.num q)) = true := h
      cases hq : truthy (.num q)
      · rfl
      · rw [hq] at h2; exact absurd h2 (by decide)
    exact ⟨_, network_step_falsy _ hb⟩
  | some (.str s) =>
    have hb : truthy (.str s) = false := by
      have h2 : (!truthy (.str s)) = true := h
      cases hq : truthy (.str s)
      · rfl
      · rw [hq] at h2; exact absurd h2 (by decide)
    exact ⟨_, network_step_falsy _ hb⟩
  | some (.arr l) =>
    have hb : truthy (.arr l) = false := by
      have h2 : (!truthy (.arr l)) = true := h
      cases hq : truthy (.arr l)
      · rfl
      · rw [hq] at h2; exact absurd h2 (by decide)
    exact ⟨_, network_step_falsy _ hb⟩

/-! ## Claims about the collector -/

/-- Claim C2: `get_pod_metrics` is total — when all three RPC calls fail it
returns the all-zero unhealthy record (the `except` branch record never
being needed: no step raises on an absent result) — and each call's failure
is isolated: a failed blockchain-info call zeroes blocks, difficulty,
progress and the healthy flag; a failed peer-info call zeroes the peer
count; a failed network-info call zeroes the connection count; and the
fields sourced from the surviving calls are preserved. -/
theorem collect_graceful_degradation (env : Config) (net : Net) (pod_host : String) :
    (make_bitcoin_rpc_call env net "getblockchaininfo" none (some pod_host) = none →
     make_bitcoin_rpc_call env net "getpeerinfo" none (some pod_host) = none →
     make_bitcoin_rpc_call env net "getnetworkinfo" none (some pod_host) = none →
     get_pod_metrics env net pod_host = unhealthy_record pod_host) ∧
    (make_bitcoin_rpc_call env net "getblockchaininfo" none (some pod_host) = none →
     (get_pod_metrics env net pod_host).blocks = .num 0 ∧
     (get_pod_metrics env net pod_host).difficulty = .num 0 ∧
     (get_pod_metrics env net pod_host).verification_progress = .num 0 ∧
     (get_pod_metrics env net pod_host).healthy = false) ∧
    (make_bitcoin_rpc_call env net "getpeerinfo" none (some pod_host) = none →
     (get_pod_metrics env net pod_host).peers = 0) ∧
    (make_bitcoin_rpc_call env net "getnetworkinfo" none (some pod_host) = none →
     (get_pod_metrics env net pod_host).connections = .num 0) ∧
    (∀ (l : List Json) (fields : List (String × Json)),
      make_bitcoin_rpc_call env net "getblockchaininfo" none (some pod_host) = none →
      make_bitcoin_rpc_call env net "getpeerinfo" none (some pod_host) = some (.arr l) →
      make_bitcoin_rpc_call env net "getnetworkinfo" none (some pod_host) = some (.obj fields) →
      (get_pod_metrics env net pod_host).peers = l.length ∧
      (get_pod_metrics env net pod_host).connections = lookupD fields "connections" (.num 0) ∧
      (get_pod_metrics env net pod_host).healthy = false) := by
  refine ⟨?_, ?_, ?_, ?_, ?_⟩
  · intro hB hP hN
    simp only [get_pod_metrics, hB, hP, hN]
    rfl
  · intro hB
    simp only [get_pod_metrics, hB, blockchain_step_none]
    cases hp : peer_step (make_bitcoin_rpc_call env net "getpeerinfo" none (some pod_host)) <;>
      cases hn : network_step (make_bitcoin_rpc_call env net "getnetworkinfo" none (some pod_host)) <;>
      exact ⟨rfl, rfl, rfl, rfl⟩
  · intro hP
    simp only [get_pod_metrics, hP, peer_step_none]
    cases hb : blockchain_step (make_bitcoin_rpc_call env net "getblockchaininfo" none (some pod_host)) <;>
      cases hn : network_step (make_bitcoin_rpc_call env net "getnetworkinfo" none (some pod_host)) <;>
      rfl
  · intro hN
    simp only [get_pod_metrics, hN, network_step_none]
    cases hb : blockchain_step (make_bitcoin_rpc_call env net "getblockchaininfo" none (some pod_host)) <;>
      cases hp : peer_step (make_bitcoin_rpc_call env net "getpeerinfo" none (some pod_host)) <;>
      rfl
  · intro l fields hB hP hN
    simp only [get_pod_metrics, hB, hP, hN, blockchain_step_none, peer_step_arr, network_step_obj]
    exact ⟨trivial, trivial, rfl⟩

/-- Witness for C2: a network where every call fails yields the all-zero
unhealthy record. -/
theorem collect_graceful_degradation_witness :
    get_pod_metrics cfg0 netFail hostFx = unhealthy_record hostFx :=
  (collect_graceful_degradation cfg0 netFail hostFx).1 rfl rfl rfl

/-- Claim C3 (amended): the healthy flag equals "the blockchain-info call
returned a non-absent result" whenever every truthy call result has the
shape its handler expects (a mapping for blockchain/network info, a sized
value for peer info) — without that proviso a truthy non-mapping
blockchain-info result raises inside the `try` block and the `except` branch
reports unhealthy despite the non-absent result (see the counterexample).
Within the shape-correct space, healthy does not depend on peer-info or
network-info outcomes, and healthy=true with peers=0 and connections=0 is
reachable when exactly those two calls failed. -/
theorem healthy_iff_blockchaininfo (env : Config) (net : Net) (pod_host : String)
    (h1 : dict_or_falsy (make_bitcoin_rpc_call env net "getblockchaininfo" none (some pod_host)) = true)
    (h2 : sized_or_falsy (make_bitcoin_rpc_call env net "getpeerinfo" none (some pod_host)) = true)
    (h3 : dict_or_falsy (make_bitcoin_rpc_call env net "getnetworkinfo" none (some pod_host)) = true) :
    ((get_pod_metrics env net pod_host).healthy = true ↔
      make_bitcoin_rpc_call env net "getblockchaininfo" none (some pod_host) ≠ none) ∧
    ((get_pod_metrics cfg0 netEmptyDict hostFx).healthy = true ∧
     (get_pod_metrics cfg0 netEmptyDict hostFx).peers = 0 ∧
     (get_pod_metrics cfg0 netEmptyDict hostFx).connections = .num 0 ∧
     make_bitcoin_rpc_call cfg0 netEmptyDict "getpeerinfo" none (some hostFx) = none ∧
     make_bitcoin_rpc_call cfg0 netEmptyDict "getnetworkinfo" none (some hostFx) = none) := by
  constructor
  · obtain ⟨t, ht⟩ := blockchain_step_ok_of_shaped _ h1
    obtain ⟨k, hk⟩ := peer_step_ok_of_shaped _ h2
    obtain ⟨c, hc⟩ := network_step_ok_of_shaped _ h3
    simp only [get_pod_metrics, ht, hk, hc]
    exact Option.isSome_iff_ne_none
  · exact ⟨rfl, rfl, rfl, rfl, rfl⟩

/-- Witness for C3's amended theorem at a concrete shape-correct network. -/
theorem healthy_iff_blockchaininfo_witness :
    (get_pod_metrics cfg0 netEmptyDict hostFx).healthy = true ↔
      make_bitcoin_rpc_call cfg0 netEmptyDict "getblockchaininfo" none (some hostFx) ≠ none :=
  (healthy_iff_blockchaininfo cfg0 netEmptyDict hostFx rfl rfl rfl).1

/-- Counterexample to C3 as stated: with a blockchain-info envelope
`{"result": 1}` the call returns a non-absent result, yet the produced
record is unhealthy (the truthy non-mapping result raises `AttributeError`
in `data.get`, so the `except` branch reports `healthy=false`). -/
theorem healthy_iff_counterexample :
    make_bitcoin_rpc_call cfg0 netTruthyNonDict "getblockchaininfo" none (some hostFx) ≠ none ∧
    (get_pod_metrics cfg0 netTruthyNonDict hostFx).healthy = false := by
  constructor
  · rw [show make_bitcoin_rpc_call cfg0 netTruthyNonDict "getblockchaininfo" none (some hostFx) =
        some (.num 1) from rfl]
    simp
  · rfl

/-- Claim C9: a present but falsy blockchain-info result (the empty mapping)
yields a record with healthy=true while blocks, difficulty and verification
progress are all 0: the numeric fields are populated only from a truthy
result, whereas healthy only requires a non-absent one. -/
theorem healthy_with_falsy_blockchaininfo :
    make_bitcoin_rpc_call cfg0 netEmptyDict "getblockchaininfo" none (some hostFx) = some (.obj []) ∧
    truthy (.obj []) = false ∧
    (get_pod_metrics cfg0 netEmptyDict hostFx).healthy = true ∧
    (get_pod_metrics cfg0 netEmptyDict hostFx).blocks = .num 0 ∧
    (get_pod_metrics cfg0 netEmptyDict hostFx).difficulty = .num 0 ∧
    (get_pod_metrics cfg0 netEmptyDict hostFx).verification_progress = .num 0 :=
  ⟨rfl, rfl, rfl, rfl, rfl, rfl⟩

/-- Claim C7 (amended): the verification progress field defaults to 0 when
the blockchain-info call failed, and otherwise simply copies the reported
`verificationprogress` value (for shape-correct sibling results), so it lies
in [0,1] exactly when the node reports a value in [0,1]; the code does not
clamp, so an out-of-range reported value passes through (see the
counterexample). -/
theorem verification_progress_amended (env : Config) (net : Net) (pod_host : String) :
    (make_bitcoin_rpc_call env net "getblockchaininfo" none (some pod_host) = none →
      (get_pod_metrics env net pod_host).verification_progress = .num 0) ∧
    (∀ (fields : List (String × Json)) (q : ℚ),
      make_bitcoin_rpc_call env net "getblockchaininfo" none (some pod_host) = some (.obj fields) →
      sized_or_falsy (make_bitcoin_rpc_call env net "getpeerinfo" none (some pod_host)) = true →
      dict_or_falsy (make_bitcoin_rpc_call env net "getnetworkinfo" none (some pod_host)) = true →
      lookupD fields "verificationprogress" (.num 0) = .num q →
      0 ≤ q → q ≤ 1 →
      (get_pod_metrics env net pod_host).verification_progress = .num q ∧
      inUnitIntervalB ((get_pod_metrics env net pod_host).verification_progress) = true) := by
  constructor
  · intro hB
    simp only [get_pod_metrics, hB, blockchain_step_none]
    cases hp : peer_step (make_bitcoin_rpc_call env net "getpeerinfo" none (some pod_host)) <;>
      cases hn : network_step (make_bitcoin_rpc_call env net "getnetworkinfo" none (some pod_host)) <;>
      rfl
  · intro fields q hB hs hd hlook h0 h1
    obtain ⟨k, hk⟩ := peer_step_ok_of_shaped _ hs
    obtain ⟨c, hc⟩ := network_step_ok_of_shaped _ hd
    simp only [get_pod_metrics, hB, blockchain_step_obj, hk, hc]
    rw [hlook]
    exact ⟨rfl, by simp [inUnitIntervalB, h0, h1]⟩

/-- Witness for C7's amended theorem at a concrete network. -/
theorem verification_progress_amended_witness :
    (get_pod_metrics cfg0 netEmptyDict hostFx).verification_progress = .num 0 ∧
    inUnitIntervalB ((get_pod_metrics cfg0 netEmptyDict hostFx).verification_progress) = true :=
  (verification_progress_amended cfg0 netEmptyDict hostFx).2 [] 0 rfl rfl rfl rfl
    (le_refl 0) (by norm_num)

/-- Counterexample to C7 as stated: a node reporting
`verificationprogress = 2` produces a record whose verification progress is
2, outside [0,1]. -/
theorem verification_progress_counterexample :
    (get_pod_metrics cfg0 netProgressTwo hostFx).verification_progress = .num 2 ∧
    inUnitIntervalB ((get_pod_metrics cfg0 netProgressTwo hostFx).verification_progress) = false :=
  ⟨rfl, rfl⟩

/-! ## Claims about the RPC client and the HTTP handler -/

/-- Claim C5: for every method, parameter list and target host the RPC
client consults the network exactly once (attempt index 0; its result is a
function of that single response, and two networks agreeing on first
attempts give identical results), never raises — any raised error inside the
`try` block, including a decodable non-mapping body, becomes `None` — and on
success returns exactly the `result` field of the decoded envelope, `None`
when the field is absent (or JSON `null`): it refines `rpc_result_spec`,
the spec's description of the client. -/
theorem rpc_client_contract (env : Config) (net : Net) (method : String)
    (params : Option (List Json)) (target_host : Option String) :
    make_bitcoin_rpc_call env net method params target_host =
      rpc_result_spec (net (buildRpcRequest env method params target_host) 0) ∧
    (∀ net2 : Net, (∀ req, net2 req 0 = net req 0) →
      make_bitcoin_rpc_call env net2 method params target_host =
        make_bitcoin_rpc_call env net method params target_host) := by
  constructor
  · unfold make_bitcoin_rpc_call rpc_result_spec
    cases hr : net (buildRpcRequest env method params target_host) 0 with
    | raise => rfl
    | body j => cases j <;> rfl
  · intro net2 h
    unfold make_bitcoin_rpc_call
    rw [h (buildRpcRequest env method params target_host)]

/-- Witness for C5 at a concrete failing network. -/
theorem rpc_client_contract_witness :
    make_bitcoin_rpc_call cfg0 netFail "getblockchaininfo" none none = none ∧
    make_bitcoin_rpc_call cfg0 netFail "getblockchaininfo" none none =
      make_bitcoin_rpc_call cfg0 netFail "getblockchaininfo" none none :=
  ⟨(rpc_client_contract cfg0 netFail "getblockchaininfo" none none).1,
   (rpc_client_contract cfg0 netFail "getblockchaininfo" none none).2 netFail fun _ => rfl⟩

/-- Claim C8: any GET whose path is neither `/metrics` nor `/health` gets a
404 with empty body and no content type, whatever the configuration,
resolver, network and completion order (the response is a constant, so it is
independent of the RPC pipeline's state); and `GET /health` always gets a
200 `text/plain` response with body `OK`, for every pipeline state — the
discovery, collection and rendering stages cannot influence it. -/
theorem unknown_path_and_health (env : Config) (resolve : String → Bool) (net : Net)
    (completion_order : List MetricsRecord → List MetricsRecord) (path : String)
    (hm : path ≠ "/metrics") (hh : path ≠ "/health") :
    do_GET env resolve net completion_order path =
      { status := 404, contentType := none, body := "" } ∧
    (∀ (env2 : Config) (resolve2 : String → Bool) (net2 : Net)
        (order2 : List MetricsRecord → List MetricsRecord),
      do_GET env2 resolve2 net2 order2 "/health" =
        { status := 200, contentType := some "text/plain", body := "OK" }) := by
  constructor
  · unfold do_GET
    rw [if_neg hm, if_neg hh]
  · intro env2 resolve2 net2 order2
    rfl

/-- Witness for C8 at the concrete path `/nonexistent`. -/
theorem unknown_path_and_health_witness :
    do_GET cfg0 resolve3 netFail id "/nonexistent" =
      { status := 404, contentType := none, body := "" } :=
  (unknown_path_and_health cfg0 resolve3 netFail id "/nonexistent"
    (by decide) (by decide)).1

end BitcoinExporter
